import Mathlib

/-!
# internet-outage-checker

A shallow embedding of `main.go` and the properties of its monitoring loop.

Modelling conventions.

* Go's `int` and `time.Duration` are 64-bit two's complement integers; they are
  embedded as `Int`, with `wrapInt64` applied where the source multiplies.
* The effects of the program are recorded in a `World`: the lines the logger
  wrote to the log destination, the lines that arrived on standard output and
  on standard error, the number of probes and of `logStatus` calls made so
  far, and the total time slept. Write errors are ignored, exactly as the
  source ignores them.
* The log path is whatever the command line gives, so the file `os.OpenFile`
  returns may be one of the standard streams of the process (`/dev/stdout`,
  `/dev/stderr`). An open file therefore carries its `Sink`, and a line logged
  to such a file also arrives on that stream.
* The environment supplies what the source reads from outside: the command
  line (already split into recognised options), the result of `os.OpenFile`,
  the outcome of each HTTP GET and the wall clock (`clock i` is the formatted
  time at which iteration `i` of the loop logs).
* `main` loops forever; `mainLoop` runs the loop body over a finite list of
  probe results and returns the state reached, so every statement about the
  loop is a statement about an arbitrary finite prefix of its execution.
-/

namespace OutageChecker

/-! ## Constants (main.go 12-17) -/

/-- Default value of the interval option, in seconds. -/
def defaultCheckInterval : Int := 10

/-- Default path of the log file. -/
def defaultLogFile : String := "connection_log.txt"

/-- The fixed reachability target. -/
def testURL : String := "http://www.google.com"

/-- The constant `time.Second`: a `time.Duration` counts nanoseconds. -/
def Second : Int := 1000000000

/-- The fixed timeout of one probe, `10 * time.Second`. -/
def timeout : Int := 10 * Second

/-- The constant `http.StatusOK`. -/
def StatusOK : Int := 200

/-! ## Machine integers -/

/-- Reduction of an integer to the int64 range, as Go's wrapping arithmetic does. -/
def wrapInt64 (x : Int) : Int := (x + 2 ^ 63) % 2 ^ 64 - 2 ^ 63

/-- A Go `int` on a 64-bit platform: the values `flag.Int` can deliver. -/
def GoInt : Type := { x : Int // -(2 ^ 63) ≤ x ∧ x < 2 ^ 63 }

/-! ## Configuration and flag parsing (main.go 19-42) -/

/-- The struct `Config`; `checkInterval` is a `time.Duration` in nanoseconds. -/
structure Config where
  checkInterval : Int
  logFilePath : String
  printOutput : Bool
deriving DecidableEq, Repr

/-- One recognised command-line option together with its parsed value.
`flag.Parse` terminates the process on anything it cannot parse, so the
options reaching `parseFlags` are exactly these. -/
inductive Flag where
  | interval (v : GoInt)
  | i (v : GoInt)
  | logfile (s : String)
  | l (s : String)
  | print (b : Bool)
  | p (b : Bool)

/-- The three variables the flags are bound to. The long and the short form of
an option are registered on the same pointer (`flag.IntVar (intervalPtr, "i", ...)`),
so both write the same variable. -/
structure FlagVars where
  intervalPtr : Int
  logFilePtr : String
  printOutputPtr : Bool
deriving DecidableEq, Repr

/-- The variables after registration: every flag holds its default. -/
def flagDefaults : FlagVars :=
  { intervalPtr := defaultCheckInterval, logFilePtr := defaultLogFile, printOutputPtr := false }

/-- Effect of one option on the flag variables. -/
def flagSet (v : FlagVars) : Flag → FlagVars
  | .interval n => { v with intervalPtr := n.val }
  | .i n => { v with intervalPtr := n.val }
  | .logfile s => { v with logFilePtr := s }
  | .l s => { v with logFilePtr := s }
  | .print b => { v with printOutputPtr := b }
  | .p b => { v with printOutputPtr := b }

/-- The call `flag.Parse ()`: the options are applied from left to right. -/
def flagParse : List Flag → FlagVars → FlagVars
  | [], v => v
  | f :: rest, v => flagParse rest (flagSet v f)

/-- The function `parseFlags`. The interval is `time.Duration (n) * time.Second`,
an int64 multiplication. -/
def parseFlags (args : List Flag) : Config :=
  let v := flagParse args flagDefaults
  { checkInterval := wrapInt64 (v.intervalPtr * Second)
    logFilePath := v.logFilePtr
    printOutput := v.printOutputPtr }

/-! ## The world the program acts on -/

/-- One line written through a `log.Logger`: the header the logger puts in
front (its prefix and the timestamp) and the message passed to `Println`. -/
structure LogLine where
  header : String
  msg : String
deriving DecidableEq, Repr

/-- The text of a log line as it stands in the file. -/
def LogLine.text (ln : LogLine) : String := ln.header ++ ln.msg

/-- Observable effects of the process so far. -/
structure World where
  logFile : List LogLine
  stdout : List String
  stderr : List String
  probes : Nat
  statusCalls : Nat
  slept : Int
deriving DecidableEq, Repr

/-- The world at process start. -/
def World.start : World :=
  { logFile := [], stdout := [], stderr := [], probes := 0, statusCalls := 0, slept := 0 }

/-- Where the bytes written to an open file end up: in a file of its own, or
on the standard output or standard error of the process (a path such as
`/dev/stdout` opens the stream itself). -/
inductive Sink where
  | regular
  | stdout
  | stderr
deriving DecidableEq, Repr

/-- An open file, `*os.File`. -/
structure File where
  name : String
  sink : Sink
deriving DecidableEq, Repr

/-- A `*log.Logger` with the flags `log.LstdFlags` (date and time), the only
flags the program uses: its destination and its prefix. -/
structure Logger where
  out : File
  pfx : String
deriving DecidableEq, Repr

/-- Header of a line logged at time `now` (already formatted as
`2006/01/02 15:04:05`): prefix, timestamp, one blank. -/
def Logger.header (logger : Logger) (now : String) : String :=
  logger.pfx ++ now ++ " "

/-- The method `logger.Println (msg)`: one line is written to the logger's
destination `logger.out`. `logFile` records the line; when the destination is a
standard stream of the process the text of the line arrives on that stream as
well. -/
def Logger.Println (logger : Logger) (now : String) (msg : String) (w : World) : World :=
  let ln : LogLine := { header := logger.header now, msg := msg }
  let w1 : World := { w with logFile := w.logFile ++ [ln] }
  match logger.out.sink with
  | .regular => w1
  | .stdout => { w1 with stdout := w1.stdout ++ [ln.text] }
  | .stderr => { w1 with stderr := w1.stderr ++ [ln.text] }

/-- The call `fmt.Println (msg)`: one line on standard output. -/
def fmtPrintln (msg : String) (w : World) : World :=
  { w with stdout := w.stdout ++ [msg] }

/-- The call `time.Sleep (d)`: returns at once when `d` is not positive. -/
def timeSleep (d : Int) (w : World) : World :=
  { w with slept := w.slept + max d 0 }

/-! ## setupLogger (main.go 44-50) -/

/-- The function `setupLogger`. `openFile` is `os.OpenFile` with the flags
`O_APPEND|O_CREATE|O_WRONLY`; on success the logger writes to the file with an
empty prefix and the standard flags. -/
def setupLogger (openFile : String → Except String File) (logFilePath : String) :
    Except String (File × Logger) :=
  match openFile logFilePath with
  | .error err => .error ("failed to open log file: " ++ err)
  | .ok file => .ok (file, { out := file, pfx := "" })

/-! ## checkConnection (main.go 52-64) -/

/-- Ways in which `client.Get` fails. -/
inductive GetError where
  | timedOut
  | connectionRefused
  | dnsFailure
  | other (msg : String)
deriving DecidableEq, Repr

/-- Outcome of the single `client.Get (testURL)`: an error, or a response with
its status code. -/
inductive GetOutcome where
  | error (err : GetError)
  | response (statusCode : Int)
deriving DecidableEq, Repr

/-- The function `checkConnection`, as a function of the outcome of its GET. -/
def checkConnection : GetOutcome → Bool
  | .error _ => false
  | .response statusCode => statusCode == StatusOK

/-! ## logStatus (main.go 66-79) -/

/-- The function `logStatus`; `now` is the time at which the logger stamps the
line. Returns the new recorded state and the world after the call. -/
def logStatus (logger : Logger) (printOutput : Bool) (connected lastStatus : Bool)
    (now : String) (w : World) : Bool × World :=
  if !connected && lastStatus then
    let w1 := logger.Println now "Internet connection lost" w
    let w2 := if printOutput then fmtPrintln "Internet connection lost" w1 else w1
    (connected, w2)
  else if connected && !lastStatus then
    let w1 := logger.Println now "Internet connection restored" w
    let w2 := if printOutput then fmtPrintln "Internet connection restored" w1 else w1
    (connected, w2)
  else
    (connected, w)

/-! ## main (main.go 81-100) -/

/-- State carried round the loop of `main`. -/
structure LoopState where
  lastStatus : Bool
  world : World
deriving DecidableEq, Repr

/-- One iteration of the loop, given the value `checkConnection ()` returned:
the probe, the call of `logStatus`, the sleep. -/
def loopBody (logger : Logger) (config : Config) (clock : Nat → String)
    (connected : Bool) (s : LoopState) : LoopState :=
  let idx := s.world.probes
  let w1 := { s.world with probes := idx + 1 }
  let w2 := { w1 with statusCalls := w1.statusCalls + 1 }
  let r := logStatus logger config.printOutput connected s.lastStatus (clock idx) w2
  { lastStatus := r.1, world := timeSleep config.checkInterval r.2 }

/-- The loop of `main` run over a finite sequence of probe results. -/
def mainLoop (logger : Logger) (config : Config) (clock : Nat → String) :
    List Bool → LoopState → LoopState
  | [], s => s
  | connected :: rest, s => mainLoop logger config clock rest (loopBody logger config clock connected s)

/-- The loop as `main` enters it: `lastStatus := false`, then the iterations. -/
def runLoop (logger : Logger) (config : Config) (clock : Nat → String) (w : World)
    (r : List Bool) : LoopState :=
  mainLoop logger config clock r { lastStatus := false, world := w }

/-- What `main` reads from outside the program. -/
structure Env where
  args : List Flag
  openFile : String → Except String File
  showDuration : Int → String
  clock : Nat → String
  fatalStamp : String
  gets : List GetOutcome

/-- Where `main` stands once the supplied GET outcomes are used up. -/
inductive MainResult where
  | exited (status : Nat) (w : World)
  | looping (s : LoopState)

/-- The world of a result. -/
def MainResult.world : MainResult → World
  | .exited _ w => w
  | .looping s => s.world

/-- The startup line printed when echo is on. -/
def banner (env : Env) (config : Config) : String :=
  "Monitoring internet connection. Check interval: " ++ env.showDuration config.checkInterval
    ++ ", Log file: " ++ config.logFilePath

/-- The function `main`. `log.Fatal (err)` writes the error through the standard
logger to standard error and exits with status 1. -/
def main (env : Env) : MainResult :=
  let config := parseFlags env.args
  match setupLogger env.openFile config.logFilePath with
  | .error err =>
    .exited 1 { World.start with stderr := [env.fatalStamp ++ " " ++ err] }
  | .ok (_file, logger) =>
    let w1 := if config.printOutput then fmtPrintln (banner env config) World.start else World.start
    .looping (runLoop logger config env.clock w1 (env.gets.map checkConnection))

/-! ## Auxiliary definitions used in the statements and proofs -/

/-- A concrete environment: the log file opens unless its path is empty, the
paths `/dev/stdout` and `/dev/stderr` open the standard streams, the clock of
iteration `n` reads as the number `n`. -/
def sampleEnv (args : List Flag) (gets : List GetOutcome) : Env :=
  { args := args
    openFile := fun path =>
      if path = "" then .error "open : no such file or directory"
      else if path = "/dev/stdout" then .ok { name := path, sink := .stdout }
      else if path = "/dev/stderr" then .ok { name := path, sink := .stderr }
      else .ok { name := path, sink := .regular }
    showDuration := fun d => toString d ++ "ns"
    clock := fun n => toString n
    fatalStamp := "2024/01/01 00:00:00"
    gets := gets }

/-- The messages "restored", "lost", "restored", ... (`n` of them) when `next`
is true, and "lost", "restored", ... when it is false. -/
def alternation : Bool → Nat → List String
  | _, 0 => []
  | next, n + 1 =>
    (if next then "Internet connection restored" else "Internet connection lost")
      :: alternation (!next) n

/-! ## Effect of one call of logStatus -/

theorem logStatus_fst (logger : Logger) (printOutput connected lastStatus : Bool)
    (now : String) (w : World) :
    (logStatus logger printOutput connected lastStatus now w).1 = connected := by
  unfold logStatus
  split_ifs <;> rfl

theorem logStatus_logFile (logger : Logger) (printOutput connected lastStatus : Bool)
    (now : String) (w : World) :
    (logStatus logger printOutput connected lastStatus now w).2.logFile
      = w.logFile ++
        (if connected = lastStatus then []
         else [{ header := logger.header now
                 msg := if connected then "Internet connection restored"
                        else "Internet connection lost" }]) := by
  cases connected <;> cases lastStatus <;> cases printOutput <;>
    cases hs : logger.out.sink <;>
    simp [logStatus, Logger.Println, fmtPrintln, hs]

theorem logStatus_stdout (logger : Logger) (printOutput connected lastStatus : Bool)
    (now : String) (w : World) :
    (logStatus logger printOutput connected lastStatus now w).2.stdout
      = w.stdout ++
        (if connected = lastStatus then []
         else
          (if logger.out.sink = Sink.stdout then
             [logger.header now ++
               (if connected then "Internet connection restored"
                else "Internet connection lost")]
           else [])
          ++ (if printOutput = true then
                [if connected then "Internet connection restored"
                 else "Internet connection lost"]
              else [])) := by
  cases connected <;> cases lastStatus <;> cases printOutput <;>
    cases hs : logger.out.sink <;>
    simp [logStatus, Logger.Println, fmtPrintln, hs, LogLine.text]

theorem logStatus_stdout_regular (logger : Logger) (hs : logger.out.sink ≠ Sink.stdout)
    (printOutput connected lastStatus : Bool) (now : String) (w : World) :
    (logStatus logger printOutput connected lastStatus now w).2.stdout
      = w.stdout ++
        (if printOutput = true ∧ connected ≠ lastStatus then
           [if connected then "Internet connection restored" else "Internet connection lost"]
         else []) := by
  rw [logStatus_stdout]
  cases connected <;> cases lastStatus <;> cases printOutput <;> simp [hs]

theorem logStatus_frame (logger : Logger) (printOutput connected lastStatus : Bool)
    (now : String) (w : World) :
    (logStatus logger printOutput connected lastStatus now w).2.probes = w.probes
      ∧ (logStatus logger printOutput connected lastStatus now w).2.statusCalls = w.statusCalls
      ∧ (logStatus logger printOutput connected lastStatus now w).2.slept = w.slept := by
  cases connected <;> cases lastStatus <;> cases printOutput <;>
    cases hs : logger.out.sink <;>
    simp [logStatus, Logger.Println, fmtPrintln, hs]

/-! ## Flag parsing and the two ways main continues after setupLogger -/

theorem flagParse_append (a b : List Flag) (v : FlagVars) :
    flagParse (a ++ b) v = flagParse b (flagParse a v) := by
  induction a generalizing v with
  | nil => rfl
  | cons f rest ih => simp [flagParse, ih]

theorem wrapInt64_of_fits (x : Int) (hlo : -(2 ^ 63) ≤ x) (hhi : x < 2 ^ 63) :
    wrapInt64 x = x := by
  unfold wrapInt64
  rw [Int.emod_eq_of_lt (by omega) (by omega)]
  omega

theorem main_of_open_ok (env : Env) (file : File) (logger : Logger)
    (h : setupLogger env.openFile (parseFlags env.args).logFilePath = .ok (file, logger)) :
    main env = .looping (runLoop logger (parseFlags env.args) env.clock
      (if (parseFlags env.args).printOutput then
        fmtPrintln (banner env (parseFlags env.args)) World.start else World.start)
      (env.gets.map checkConnection)) := by
  simp only [main, h]

theorem main_of_open_error (env : Env) (err : String)
    (h : setupLogger env.openFile (parseFlags env.args).logFilePath = .error err) :
    main env = .exited 1 { World.start with stderr := [env.fatalStamp ++ " " ++ err] } := by
  simp only [main, h]

/-! ## Effect of the loop -/

theorem loopBody_lastStatus (logger : Logger) (config : Config) (clock : Nat → String)
    (connected : Bool) (s : LoopState) :
    (loopBody logger config clock connected s).lastStatus = connected := by
  simp [loopBody, logStatus_fst]

theorem loopBody_logFile (logger : Logger) (config : Config) (clock : Nat → String)
    (connected : Bool) (s : LoopState) :
    (loopBody logger config clock connected s).world.logFile
      = s.world.logFile ++
        (if connected = s.lastStatus then []
         else [{ header := logger.header (clock s.world.probes)
                 msg := if connected then "Internet connection restored"
                        else "Internet connection lost" }]) := by
  simp [loopBody, timeSleep, logStatus_logFile]

theorem loopBody_stdout (logger : Logger) (hs : logger.out.sink ≠ Sink.stdout)
    (config : Config) (clock : Nat → String) (connected : Bool) (s : LoopState) :
    (loopBody logger config clock connected s).world.stdout
      = s.world.stdout ++
        (if config.printOutput = true ∧ connected ≠ s.lastStatus then
           [if connected then "Internet connection restored" else "Internet connection lost"]
         else []) := by
  simp [loopBody, timeSleep, logStatus_stdout_regular logger hs]

theorem loopBody_probes (logger : Logger) (config : Config) (clock : Nat → String)
    (connected : Bool) (s : LoopState) :
    (loopBody logger config clock connected s).world.probes = s.world.probes + 1 := by
  simp [loopBody, timeSleep, (logStatus_frame _ _ _ _ _ _).1]

theorem loopBody_statusCalls (logger : Logger) (config : Config) (clock : Nat → String)
    (connected : Bool) (s : LoopState) :
    (loopBody logger config clock connected s).world.statusCalls
      = s.world.statusCalls + 1 := by
  simp [loopBody, timeSleep, (logStatus_frame _ _ _ _ _ _).2.1]

theorem mainLoop_append (logger : Logger) (config : Config) (clock : Nat → String)
    (r1 r2 : List Bool) (s : LoopState) :
    mainLoop logger config clock (r1 ++ r2) s
      = mainLoop logger config clock r2 (mainLoop logger config clock r1 s) := by
  induction r1 generalizing s with
  | nil => rfl
  | cons c rest ih => simp [mainLoop, ih]

theorem mainLoop_snoc (logger : Logger) (config : Config) (clock : Nat → String)
    (r : List Bool) (c : Bool) (s : LoopState) :
    mainLoop logger config clock (r ++ [c]) s
      = loopBody logger config clock c (mainLoop logger config clock r s) := by
  rw [mainLoop_append]
  rfl

theorem mainLoop_probes (logger : Logger) (config : Config) (clock : Nat → String)
    (r : List Bool) (s : LoopState) :
    (mainLoop logger config clock r s).world.probes = s.world.probes + r.length := by
  induction r generalizing s with
  | nil => rfl
  | cons c rest ih =>
    simp only [mainLoop, ih, loopBody_probes, List.length_cons]
    omega

theorem mainLoop_statusCalls (logger : Logger) (config : Config) (clock : Nat → String)
    (r : List Bool) (s : LoopState) :
    (mainLoop logger config clock r s).world.statusCalls
      = s.world.statusCalls + r.length := by
  induction r generalizing s with
  | nil => rfl
  | cons c rest ih =>
    simp only [mainLoop, ih, loopBody_statusCalls, List.length_cons]
    omega

theorem mainLoop_stdout_silent (logger : Logger) (hs : logger.out.sink ≠ Sink.stdout)
    (config : Config) (clock : Nat → String)
    (hp : config.printOutput = false) (r : List Bool) (s : LoopState) :
    (mainLoop logger config clock r s).world.stdout = s.world.stdout := by
  induction r generalizing s with
  | nil => rfl
  | cons c rest ih =>
    simp only [mainLoop, ih, loopBody_stdout logger hs, hp]
    simp

theorem take_succ_snoc (r : List Bool) (i : Nat) (hi : i < r.length) :
    r.take (i + 1) = r.take i ++ [r.getD i false] := by
  rw [List.take_succ]
  simp [List.getD, List.getElem?_eq_getElem hi]

theorem runLoop_take_lastStatus (logger : Logger) (config : Config) (clock : Nat → String)
    (w : World) (r : List Bool) (i : Nat) (hi : i ≤ r.length) :
    (runLoop logger config clock w (r.take i)).lastStatus
      = (if i = 0 then false else r.getD (i - 1) false) := by
  cases i with
  | zero => simp [runLoop, mainLoop]
  | succ j =>
    have hj : j < r.length := by omega
    simp only [runLoop, take_succ_snoc r j hj, mainLoop_snoc, loopBody_lastStatus]
    simp

theorem runLoop_take_probes (logger : Logger) (config : Config) (clock : Nat → String)
    (w : World) (r : List Bool) (i : Nat) (hi : i ≤ r.length) :
    (runLoop logger config clock w (r.take i)).world.probes = w.probes + i := by
  simp only [runLoop, mainLoop_probes, List.length_take]
  omega

theorem runLoop_take_succ_logFile (logger : Logger) (config : Config)
    (clock : Nat → String) (w : World) (r : List Bool) (i : Nat) (hi : i < r.length) :
    (runLoop logger config clock w (r.take (i + 1))).world.logFile
      = (runLoop logger config clock w (r.take i)).world.logFile ++
        (if r.getD i false = (if i = 0 then false else r.getD (i - 1) false) then []
         else [{ header := logger.header (clock (w.probes + i))
                 msg := if r.getD i false then "Internet connection restored"
                        else "Internet connection lost" }]) := by
  have h1 := runLoop_take_lastStatus logger config clock w r i (by omega)
  have h2 := runLoop_take_probes logger config clock w r i (by omega)
  rw [take_succ_snoc r i hi]
  unfold runLoop at *
  rw [mainLoop_snoc, loopBody_logFile, h1, h2]

theorem runLoop_take_logFile_length (logger : Logger) (config : Config)
    (clock : Nat → String) (w : World) (r : List Bool) (i : Nat) (hi : i ≤ r.length) :
    (runLoop logger config clock w (r.take i)).world.logFile.length
      = w.logFile.length +
        ((List.range i).filter (fun j =>
          r.getD j false != (if j = 0 then false else r.getD (j - 1) false))).length := by
  induction i with
  | zero => simp [runLoop, mainLoop]
  | succ j ih =>
    have hj : j < r.length := by omega
    rw [runLoop_take_succ_logFile logger config clock w r j hj, List.length_append,
      ih (by omega), List.range_succ, List.filter_append, List.length_append]
    simp only [List.filter_cons, List.filter_nil]
    generalize (if j = 0 then false else r.getD (j - 1) false) = prev
    generalize r.getD j false = c
    cases c <;> cases prev <;> simp <;> omega

/-- C2: for every finite sequence `r` of probe results fed through the loop
from the recorded state false, the state recorded before iteration `i` is
false for `i = 0` and `r[i-1]` otherwise, and iteration `i` appends one log
entry if `r[i]` differs from it and nothing if not; so the number of entries
appended over the whole run is the number of such indices. For
`[false, false, true, true, false]` the entries are "restored" at index 2 and
"lost" at index 4 and nothing at indices 0, 1 and 3. -/
theorem runLoop_entry_iff_change (logger : Logger) (config : Config)
    (clock : Nat → String) (w : World) (r : List Bool) (i : Nat) (hi : i < r.length) :
    (runLoop logger config clock w (r.take i)).lastStatus
        = (if i = 0 then false else r.getD (i - 1) false)
    ∧ (runLoop logger config clock w (r.take (i + 1))).world.logFile
        = (runLoop logger config clock w (r.take i)).world.logFile ++
          (if r.getD i false = (if i = 0 then false else r.getD (i - 1) false) then []
           else [{ header := logger.header (clock (w.probes + i))
                   msg := if r.getD i false then "Internet connection restored"
                          else "Internet connection lost" }])
    ∧ ((runLoop logger config clock w (r.take (i + 1))).world.logFile.length
          = (runLoop logger config clock w (r.take i)).world.logFile.length + 1
        ↔ r.getD i false ≠ (if i = 0 then false else r.getD (i - 1) false))
    ∧ ((runLoop logger config clock w (r.take (i + 1))).world.logFile
          = (runLoop logger config clock w (r.take i)).world.logFile
        ↔ r.getD i false = (if i = 0 then false else r.getD (i - 1) false))
    ∧ (runLoop logger config clock w r).world.logFile.length
        = w.logFile.length +
          ((List.range r.length).filter (fun j =>
            r.getD j false != (if j = 0 then false else r.getD (j - 1) false))).length
    ∧ (runLoop logger config clock w [false]).world.logFile = w.logFile
    ∧ (runLoop logger config clock w [false, false]).world.logFile = w.logFile
    ∧ (runLoop logger config clock w [false, false, true]).world.logFile
        = w.logFile ++ [{ header := logger.header (clock (w.probes + 2))
                          msg := "Internet connection restored" }]
    ∧ (runLoop logger config clock w [false, false, true, true]).world.logFile
        = w.logFile ++ [{ header := logger.header (clock (w.probes + 2))
                          msg := "Internet connection restored" }]
    ∧ (runLoop logger config clock w [false, false, true, true, false]).world.logFile
        = w.logFile ++ [{ header := logger.header (clock (w.probes + 2))
                          msg := "Internet connection restored" },
                        { header := logger.header (clock (w.probes + 4))
                          msg := "Internet connection lost" }] := by
  have hstep := runLoop_take_succ_logFile logger config clock w r i hi
  refine ⟨runLoop_take_lastStatus logger config clock w r i (by omega), hstep, ?_, ?_, ?_,
    ?_, ?_, ?_, ?_, ?_⟩
  · rw [hstep]
    generalize (if i = 0 then false else r.getD (i - 1) false) = prev
    generalize r.getD i false = c
    cases c <;> cases prev <;> simp
  · rw [hstep]
    generalize (if i = 0 then false else r.getD (i - 1) false) = prev
    generalize r.getD i false = c
    cases c <;> cases prev <;> simp
  · have h := runLoop_take_logFile_length logger config clock w r r.length (le_refl _)
    rwa [List.take_length] at h
  all_goals
    simp [runLoop, mainLoop, loopBody_logFile, loopBody_lastStatus, loopBody_probes,
      Nat.add_assoc]

theorem runLoop_entry_iff_change_witness :
    (2 < [false, false, true, true, false].length)
    ∧ (runLoop { out := { name := "connection_log.txt", sink := .regular }, pfx := "" } (parseFlags [])
          (fun n => toString n) World.start
          ([false, false, true, true, false].take (2 + 1))).world.logFile.length
        = (runLoop { out := { name := "connection_log.txt", sink := .regular }, pfx := "" } (parseFlags [])
          (fun n => toString n) World.start
          ([false, false, true, true, false].take 2)).world.logFile.length + 1 :=
  ⟨by decide,
    ((runLoop_entry_iff_change { out := { name := "connection_log.txt", sink := .regular }, pfx := "" }
      (parseFlags []) (fun n => toString n) World.start
      [false, false, true, true, false] 2 (by decide)).2.2.1).2 (by decide)⟩

/-- C3: the value returned by logStatus is `connected`, for every logger,
`printOutput` and `lastStatus` and whether or not a line was logged; hence
after each iteration of the loop the recorded `lastStatus` is that
iteration's probe result. -/
theorem logStatus_returns_connected (logger : Logger) (printOutput connected lastStatus : Bool)
    (now : String) (w : World) (config : Config) (clock : Nat → String)
    (r : List Bool) (s : LoopState) :
    (logStatus logger printOutput connected lastStatus now w).1 = connected
    ∧ (loopBody logger config clock connected s).lastStatus = connected
    ∧ (mainLoop logger config clock (r ++ [connected]) s).lastStatus = connected
    ∧ (runLoop logger config clock w (r ++ [connected])).lastStatus = connected := by
  refine ⟨logStatus_fst _ _ _ _ _ _, loopBody_lastStatus _ _ _ _ _, ?_, ?_⟩
  · rw [mainLoop_snoc, loopBody_lastStatus]
  · rw [runLoop, mainLoop_snoc, loopBody_lastStatus]

/-- C4: the loop starts from the recorded state false: a first probe result
true makes the first iteration append exactly one "Internet connection
restored" entry, a first probe result false makes it append nothing. For the
results `[true, true]` one "restored" entry is appended, at index 0, and
nothing at index 1. The loop main enters after a successful setupLogger is
this loop, started on an empty log. -/
theorem runLoop_first_iteration (logger : Logger) (config : Config)
    (clock : Nat → String) (w : World) (first : Bool) (rest : List Bool) :
    (runLoop logger config clock w []).lastStatus = false
    ∧ (runLoop logger config clock w ((first :: rest).take 1)).world.logFile
        = w.logFile ++
          (if first then [{ header := logger.header (clock w.probes)
                            msg := "Internet connection restored" }]
           else [])
    ∧ (runLoop logger config clock w [true]).world.logFile
        = w.logFile ++ [{ header := logger.header (clock w.probes)
                          msg := "Internet connection restored" }]
    ∧ (runLoop logger config clock w [false]).world.logFile = w.logFile
    ∧ (runLoop logger config clock w [true, true]).world.logFile
        = w.logFile ++ [{ header := logger.header (clock w.probes)
                          msg := "Internet connection restored" }]
    ∧ (∀ (env : Env) (file : File) (lg : Logger),
        setupLogger env.openFile (parseFlags env.args).logFilePath = .ok (file, lg) →
        ∃ w1 : World, w1.logFile = [] ∧ w1.probes = 0
          ∧ main env = .looping (runLoop lg (parseFlags env.args) env.clock w1
              (env.gets.map checkConnection))) := by
  refine ⟨rfl, ?_, ?_, ?_, ?_, ?_⟩
  · cases first <;>
      simp [runLoop, mainLoop, loopBody_logFile, loopBody_lastStatus, loopBody_probes]
  · simp [runLoop, mainLoop, loopBody_logFile, loopBody_lastStatus, loopBody_probes]
  · simp [runLoop, mainLoop, loopBody_logFile, loopBody_lastStatus, loopBody_probes]
  · simp [runLoop, mainLoop, loopBody_logFile, loopBody_lastStatus, loopBody_probes]
  · intro env file lg h
    refine ⟨_, ?_, ?_, main_of_open_ok env file lg h⟩
    · cases (parseFlags env.args).printOutput <;> rfl
    · cases (parseFlags env.args).printOutput <;> rfl

/-- C1: one call of logStatus appends exactly one line to the log when
`connected` differs from `lastStatus` and nothing when they are equal; the
line carries "Internet connection lost" exactly when `lastStatus` is true and
`connected` is false, and "Internet connection restored" exactly when
`lastStatus` is false and `connected` is true. This holds for every
`printOutput`. -/
theorem logStatus_transition (logger : Logger) (printOutput connected lastStatus : Bool)
    (now : String) (w : World) :
    ((logStatus logger printOutput connected lastStatus now w).2.logFile
        = w.logFile ++ [{ header := logger.header now, msg := "Internet connection lost" }]
      ↔ (lastStatus = true ∧ connected = false))
    ∧ ((logStatus logger printOutput connected lastStatus now w).2.logFile
        = w.logFile ++ [{ header := logger.header now, msg := "Internet connection restored" }]
      ↔ (lastStatus = false ∧ connected = true))
    ∧ ((logStatus logger printOutput connected lastStatus now w).2.logFile = w.logFile
      ↔ connected = lastStatus)
    ∧ ((logStatus logger printOutput connected lastStatus now w).2.logFile.length
        = w.logFile.length + 1
      ↔ connected ≠ lastStatus)
    ∧ ((logStatus logger printOutput connected lastStatus now w).2.logFile.length
        = w.logFile.length
      ↔ connected = lastStatus) := by
  rw [logStatus_logFile]
  cases connected <;> cases lastStatus <;> simp

/-- C5: checkConnection is a total function to a boolean (no error reaches the
caller); it returns true only for a GET that completed without error with the
status 200, a success (2xx) status; it returns false for every error outcome
and for every response whose status is not a success status. -/
theorem checkConnection_sound :
    (∀ o : GetOutcome, checkConnection o = true ∨ checkConnection o = false)
    ∧ (∀ o : GetOutcome, checkConnection o = true ↔ o = GetOutcome.response StatusOK)
    ∧ (∀ o : GetOutcome, checkConnection o = true →
        ∃ code : Int, o = GetOutcome.response code ∧ 200 ≤ code ∧ code < 300)
    ∧ (∀ err : GetError, checkConnection (GetOutcome.error err) = false)
    ∧ (∀ code : Int, ¬ (200 ≤ code ∧ code < 300) →
        checkConnection (GetOutcome.response code) = false) := by
  refine ⟨?_, ?_, ?_, ?_, ?_⟩
  · intro o
    cases h : checkConnection o <;> simp
  · intro o
    cases o with
    | error err => simp [checkConnection]
    | response code => simp [checkConnection]
  · intro o h
    cases o with
    | error err => simp [checkConnection] at h
    | response code =>
      simp [checkConnection, StatusOK] at h
      exact ⟨code, rfl, by omega, by omega⟩
  · intro err
    rfl
  · intro code h
    simp only [checkConnection, StatusOK, beq_eq_false_iff_ne, ne_eq]
    intro hc
    exact h ⟨by omega, by omega⟩

/-! ## Startup -/

/-- C6: when setupLogger returns an error, main exits with status 1 before the
loop: no probe is made, logStatus is never called, nothing is appended to the
log and nothing is written to standard output. Conversely main reaches the
loop only when setupLogger returned a file and a logger without error. -/
theorem main_fatal_on_open_failure (env : Env) :
    (∀ err : String,
      setupLogger env.openFile (parseFlags env.args).logFilePath = .error err →
        main env = .exited 1 { World.start with stderr := [env.fatalStamp ++ " " ++ err] }
        ∧ (main env).world.probes = 0
        ∧ (main env).world.statusCalls = 0
        ∧ (main env).world.logFile = []
        ∧ (main env).world.stdout = [])
    ∧ (∀ s : LoopState, main env = .looping s →
        ∃ (file : File) (logger : Logger),
          setupLogger env.openFile (parseFlags env.args).logFilePath = .ok (file, logger)) := by
  constructor
  · intro err h
    rw [main_of_open_error env err h]
    exact ⟨rfl, rfl, rfl, rfl, rfl⟩
  · intro s hs
    cases h : setupLogger env.openFile (parseFlags env.args).logFilePath with
    | error err =>
      rw [main_of_open_error env err h] at hs
      cases hs
    | ok fl =>
      exact ⟨fl.1, fl.2, rfl⟩

theorem main_fatal_on_open_failure_witness :
    setupLogger (sampleEnv [Flag.l ""] [GetOutcome.response 200]).openFile
        (parseFlags (sampleEnv [Flag.l ""] [GetOutcome.response 200]).args).logFilePath
      = .error "failed to open log file: open : no such file or directory"
    ∧ (main (sampleEnv [Flag.l ""] [GetOutcome.response 200])).world.probes = 0 :=
  ⟨rfl,
    ((main_fatal_on_open_failure (sampleEnv [Flag.l ""] [GetOutcome.response 200])).1
      "failed to open log file: open : no such file or directory" rfl).2.1⟩

/-! ## Console echo -/

theorem setupLogger_pfx (openFile : String → Except String File) (path : String)
    (file : File) (logger : Logger) (h : setupLogger openFile path = .ok (file, logger)) :
    logger.pfx = "" ∧ logger.out = file ∧ openFile path = .ok file := by
  unfold setupLogger at h
  cases ho : openFile path with
  | error err => simp [ho] at h
  | ok f =>
    simp only [ho, Except.ok.injEq, Prod.mk.injEq] at h
    obtain ⟨h1, h2⟩ := h
    subst h1
    subst h2
    exact ⟨rfl, rfl, rfl⟩

theorem setupLogger_header (openFile : String → Except String File) (path : String)
    (file : File) (logger : Logger) (h : setupLogger openFile path = .ok (file, logger))
    (now : String) : logger.header now = now ++ " " := by
  have hp := (setupLogger_pfx openFile path file logger h).1
  simp [Logger.header, hp]

/-- C7 (counterexample): with the log opened on `/dev/stdout` and `printOutput`
true, one call of logStatus that logs "Internet connection restored" puts two
lines on standard output, the time-stamped log line and the echo, while one
line was appended to the log: standard output is not the list of the logged
messages. -/
theorem logStatus_echo_stdout_alias :
    setupLogger (sampleEnv [] []).openFile "/dev/stdout"
      = .ok ({ name := "/dev/stdout", sink := .stdout },
             { out := { name := "/dev/stdout", sink := .stdout }, pfx := "" })
    ∧ (logStatus { out := { name := "/dev/stdout", sink := .stdout }, pfx := "" } true true
          false "2024/01/01 00:00:00" World.start).2.logFile
        = [{ header := "2024/01/01 00:00:00 ", msg := "Internet connection restored" }]
    ∧ (logStatus { out := { name := "/dev/stdout", sink := .stdout }, pfx := "" } true true
          false "2024/01/01 00:00:00" World.start).2.stdout
        = ["2024/01/01 00:00:00 Internet connection restored",
           "Internet connection restored"]
    ∧ (logStatus { out := { name := "/dev/stdout", sink := .stdout }, pfx := "" } true true
          false "2024/01/01 00:00:00" World.start).2.stdout
        ≠ (logStatus { out := { name := "/dev/stdout", sink := .stdout }, pfx := "" } true
            true false "2024/01/01 00:00:00" World.start).2.logFile.map LogLine.msg := by
  refine ⟨rfl, by decide, by decide, by decide⟩

/-- C7 (amended): with `printOutput` true and a logger whose destination is not
standard output, one call of logStatus writes to standard output exactly the
messages of the lines it appends to the log, as many and with the same text;
for the logger made by setupLogger on such a destination each appended log
line is the timestamp, a blank and a message among "Internet connection lost"
and "Internet connection restored", and the line on standard output is that
message without the timestamp. -/
theorem logStatus_echo_matches_log (openFile : String → Except String File) (path : String)
    (file : File) (logger : Logger) (h : setupLogger openFile path = .ok (file, logger))
    (hs : file.sink ≠ Sink.stdout)
    (other : Logger) (ho : other.out.sink ≠ Sink.stdout)
    (connected lastStatus : Bool) (now : String) (w : World) :
    ((logStatus other true connected lastStatus now w).2.logFile.drop
          w.logFile.length).map LogLine.msg
        = (logStatus other true connected lastStatus now w).2.stdout.drop w.stdout.length
    ∧ ∃ msgs : List String,
      msgs = (if connected = lastStatus then []
              else [if connected then "Internet connection restored"
                    else "Internet connection lost"])
      ∧ (∀ m ∈ msgs, m = "Internet connection lost" ∨ m = "Internet connection restored")
      ∧ (logStatus logger true connected lastStatus now w).2.logFile
          = w.logFile ++ msgs.map (fun m => { header := now ++ " ", msg := m })
      ∧ (logStatus logger true connected lastStatus now w).2.stdout = w.stdout ++ msgs
      ∧ ((logStatus logger true connected lastStatus now w).2.logFile.drop
            w.logFile.length).map LogLine.msg
          = (logStatus logger true connected lastStatus now w).2.stdout.drop w.stdout.length
      ∧ (∀ ln ∈ (logStatus logger true connected lastStatus now w).2.logFile.drop
            w.logFile.length, ln.text = now ++ " " ++ ln.msg) := by
  have hh := setupLogger_header openFile path file logger h now
  have hl : logger.out.sink ≠ Sink.stdout := by
    rw [(setupLogger_pfx openFile path file logger h).2.1]
    exact hs
  refine ⟨?_, _, rfl, ?_, ?_, ?_, ?_, ?_⟩
  · rw [logStatus_logFile, logStatus_stdout_regular other ho]
    cases connected <;> cases lastStatus <;> simp
  · cases connected <;> cases lastStatus <;> simp
  · rw [logStatus_logFile, hh]
    cases connected <;> cases lastStatus <;> simp
  · rw [logStatus_stdout_regular logger hl]
    cases connected <;> cases lastStatus <;> simp
  · rw [logStatus_logFile, logStatus_stdout_regular logger hl]
    cases connected <;> cases lastStatus <;> simp
  · rw [logStatus_logFile, hh]
    cases connected <;> cases lastStatus <;> simp [LogLine.text]

theorem logStatus_echo_matches_log_witness :
    setupLogger (sampleEnv [] []).openFile "connection_log.txt"
      = .ok ({ name := "connection_log.txt", sink := .regular },
             { out := { name := "connection_log.txt", sink := .regular }, pfx := "" })
    ∧ ({ name := "connection_log.txt", sink := .regular } : File).sink ≠ Sink.stdout
    ∧ ({ out := { name := "/dev/stderr", sink := .stderr }, pfx := "net: " } : Logger).out.sink
        ≠ Sink.stdout
    ∧ ∃ msgs : List String,
      msgs = (if true = false then []
              else [if true then "Internet connection restored"
                    else "Internet connection lost"])
      ∧ (∀ m ∈ msgs, m = "Internet connection lost" ∨ m = "Internet connection restored")
      ∧ (logStatus { out := { name := "connection_log.txt", sink := .regular }, pfx := "" }
            true true false "2024/01/01 00:00:00" World.start).2.logFile
          = World.start.logFile ++
              msgs.map (fun m => { header := "2024/01/01 00:00:00" ++ " ", msg := m })
      ∧ (logStatus { out := { name := "connection_log.txt", sink := .regular }, pfx := "" }
            true true false "2024/01/01 00:00:00" World.start).2.stdout
          = World.start.stdout ++ msgs
      ∧ ((logStatus { out := { name := "connection_log.txt", sink := .regular }, pfx := "" }
            true true false "2024/01/01 00:00:00" World.start).2.logFile.drop
            World.start.logFile.length).map LogLine.msg
          = (logStatus { out := { name := "connection_log.txt", sink := .regular }, pfx := "" }
            true true false "2024/01/01 00:00:00" World.start).2.stdout.drop
            World.start.stdout.length
      ∧ (∀ ln ∈ (logStatus { out := { name := "connection_log.txt", sink := .regular },
                             pfx := "" }
            true true false "2024/01/01 00:00:00" World.start).2.logFile.drop
            World.start.logFile.length, ln.text = "2024/01/01 00:00:00" ++ " " ++ ln.msg) :=
  ⟨rfl, by decide, by decide,
    (logStatus_echo_matches_log (sampleEnv [] []).openFile "connection_log.txt"
      { name := "connection_log.txt", sink := .regular }
      { out := { name := "connection_log.txt", sink := .regular }, pfx := "" }
      rfl (by decide) { out := { name := "/dev/stderr", sink := .stderr }, pfx := "net: " }
      (by decide) true false "2024/01/01 00:00:00" World.start).2⟩

/-- C8 (counterexample): with console echo off and the log opened on
`/dev/stdout`, the outcomes "200" then "timeout" put two lines on standard
output, the two logged transitions. -/
theorem main_stdout_alias :
    (parseFlags (sampleEnv [Flag.l "/dev/stdout"]
        [GetOutcome.response 200, GetOutcome.error GetError.timedOut]).args).printOutput
      = false
    ∧ (main (sampleEnv [Flag.l "/dev/stdout"]
        [GetOutcome.response 200, GetOutcome.error GetError.timedOut])).world.stdout
      = ["0 Internet connection restored", "1 Internet connection lost"]
    ∧ (main (sampleEnv [Flag.l "/dev/stdout"]
        [GetOutcome.response 200, GetOutcome.error GetError.timedOut])).world.stdout
      ≠ [] := by
  refine ⟨rfl, by decide, by decide⟩

/-- C8 (amended): with console echo off (`printOutput` false) and a log
destination that is not standard output, the program writes nothing to
standard output, whatever the probe results and however many lines go to the
log: the startup banner is skipped, no call of logStatus on such a logger
writes to standard output, and the loop leaves standard output as it found
it. -/
theorem main_stdout_silent (env : Env) (h : (parseFlags env.args).printOutput = false)
    (hs : ∀ file : File, env.openFile (parseFlags env.args).logFilePath = .ok file →
      file.sink ≠ Sink.stdout) :
    (main env).world.stdout = []
    ∧ (∀ (logger : Logger), logger.out.sink ≠ Sink.stdout →
        ∀ (connected lastStatus : Bool) (now : String) (w : World),
        (logStatus logger false connected lastStatus now w).2.stdout = w.stdout)
    ∧ (∀ (logger : Logger), logger.out.sink ≠ Sink.stdout →
        ∀ (clock : Nat → String) (r : List Bool) (s : LoopState),
        (mainLoop logger (parseFlags env.args) clock r s).world.stdout = s.world.stdout) := by
  refine ⟨?_, ?_, ?_⟩
  · cases hsl : setupLogger env.openFile (parseFlags env.args).logFilePath with
    | error err =>
      rw [main_of_open_error env err hsl]
      rfl
    | ok fl =>
      obtain ⟨file, logger⟩ := fl
      obtain ⟨_, hout, hopen⟩ := setupLogger_pfx _ _ file logger hsl
      have hl : logger.out.sink ≠ Sink.stdout := by
        rw [hout]
        exact hs file hopen
      rw [main_of_open_ok env file logger hsl]
      simp only [MainResult.world, runLoop, h]
      rw [mainLoop_stdout_silent logger hl _ env.clock h]
      rfl
  · intro logger hl connected lastStatus now w
    rw [logStatus_stdout_regular logger hl]
    simp
  · intro logger hl clock r s
    exact mainLoop_stdout_silent logger hl _ clock h r s

theorem main_stdout_silent_witness :
    (parseFlags (sampleEnv [Flag.i ⟨5, by decide⟩]
        [GetOutcome.response 200, GetOutcome.error GetError.timedOut,
          GetOutcome.response 200]).args).printOutput = false
    ∧ (∀ file : File,
        (sampleEnv [Flag.i ⟨5, by decide⟩]
          [GetOutcome.response 200, GetOutcome.error GetError.timedOut,
            GetOutcome.response 200]).openFile
          (parseFlags (sampleEnv [Flag.i ⟨5, by decide⟩]
            [GetOutcome.response 200, GetOutcome.error GetError.timedOut,
              GetOutcome.response 200]).args).logFilePath = .ok file →
        file.sink ≠ Sink.stdout)
    ∧ (main (sampleEnv [Flag.i ⟨5, by decide⟩]
        [GetOutcome.response 200, GetOutcome.error GetError.timedOut,
          GetOutcome.response 200])).world.logFile.length = 3
    ∧ (main (sampleEnv [Flag.i ⟨5, by decide⟩]
        [GetOutcome.response 200, GetOutcome.error GetError.timedOut,
          GetOutcome.response 200])).world.stdout = [] :=
  ⟨rfl,
    fun file hf => by
      have hf2 : (Except.ok { name := "connection_log.txt", sink := Sink.regular }
          : Except String File) = Except.ok file := hf
      cases hf2
      decide,
    by decide,
    (main_stdout_silent (sampleEnv [Flag.i ⟨5, by decide⟩]
        [GetOutcome.response 200, GetOutcome.error GetError.timedOut,
          GetOutcome.response 200]) rfl
      (fun file hf => by
        have hf2 : (Except.ok { name := "connection_log.txt", sink := Sink.regular }
            : Except String File) = Except.ok file := hf
        cases hf2
        decide)).1⟩

/-! ## The check interval -/

/-- C9 (counterexample): the interval option accepts values that give a check
interval which is not strictly positive: `-interval 0` gives the zero
duration, `-i -5` a negative one, and for `-interval 9223372037` the int64
product with `time.Second` wraps round to a negative duration. -/
theorem parseFlags_interval_zero :
    (parseFlags [Flag.interval ⟨0, by decide⟩]).checkInterval = 0
    ∧ ¬ (0 < (parseFlags [Flag.interval ⟨0, by decide⟩]).checkInterval)
    ∧ (parseFlags [Flag.i ⟨-5, by decide⟩]).checkInterval = -5000000000
    ∧ (parseFlags [Flag.interval ⟨9223372037, by decide⟩]).checkInterval
        = -9223372036709551616 := by
  decide

/-- C9 (amended): writing `n` for the value the interval option holds after
parsing (the last value given with `-interval` or `-i`, 10 when none is given),
if `1 ≤ n ≤ 9223372036` then the check interval of the Config returned by
parseFlags is `n` seconds, a duration strictly greater than zero; the default
gives 10 seconds. -/
theorem parseFlags_interval_pos (args : List Flag)
    (hpos : 0 < (flagParse args flagDefaults).intervalPtr)
    (hfit : (flagParse args flagDefaults).intervalPtr ≤ 9223372036) :
    (parseFlags args).checkInterval = (flagParse args flagDefaults).intervalPtr * Second
    ∧ 0 < (parseFlags args).checkInterval
    ∧ (parseFlags []).checkInterval = 10 * Second
    ∧ (∀ (before : List Flag) (v : GoInt),
        (flagParse (before ++ [Flag.interval v]) flagDefaults).intervalPtr = v.val
        ∧ (flagParse (before ++ [Flag.i v]) flagDefaults).intervalPtr = v.val) := by
  have hw : (parseFlags args).checkInterval
      = (flagParse args flagDefaults).intervalPtr * Second := by
    show wrapInt64 _ = _
    apply wrapInt64_of_fits <;> simp only [Second] <;> omega
  refine ⟨hw, ?_, by decide, ?_⟩
  · rw [hw]
    simp only [Second]
    omega
  · intro before v
    simp [flagParse_append, flagParse, flagSet]

theorem parseFlags_interval_pos_witness :
    (0 < (flagParse [Flag.p true, Flag.i ⟨30, by decide⟩] flagDefaults).intervalPtr)
    ∧ ((flagParse [Flag.p true, Flag.i ⟨30, by decide⟩] flagDefaults).intervalPtr
        ≤ 9223372036)
    ∧ (parseFlags [Flag.p true, Flag.i ⟨30, by decide⟩]).checkInterval = 30000000000
    ∧ 0 < (parseFlags [Flag.p true, Flag.i ⟨30, by decide⟩]).checkInterval :=
  ⟨by decide, by decide,
    (parseFlags_interval_pos [Flag.p true, Flag.i ⟨30, by decide⟩]
      (by decide) (by decide)).1,
    (parseFlags_interval_pos [Flag.p true, Flag.i ⟨30, by decide⟩]
      (by decide) (by decide)).2.1⟩

/-! ## Alternation of the logged transitions -/

theorem alternation_length (next : Bool) (n : Nat) : (alternation next n).length = n := by
  induction n generalizing next with
  | zero => rfl
  | succ m ih => simp [alternation, ih]

theorem alternation_getD (next : Bool) (n k : Nat) (hk : k < n) :
    (alternation next n).getD k ""
      = (if (k % 2 = 0) = (next = true) then "Internet connection restored"
         else "Internet connection lost") := by
  induction n generalizing next k with
  | zero => omega
  | succ m ih =>
    cases k with
    | zero => cases next <;> simp [alternation]
    | succ j =>
      have hj : j < m := by omega
      have h := ih (!next) j hj
      simp only [alternation, List.getD_cons_succ, h]
      rcases Nat.mod_two_eq_zero_or_one j with h0 | h1
      · have : (j + 1) % 2 = 1 := by omega
        cases next <;> simp [h0, this]
      · have : (j + 1) % 2 = 0 := by omega
        cases next <;> simp [h1, this]

theorem alternation_count (next : Bool) (n : Nat) :
    (alternation next n).count "Internet connection restored"
        = (if next then (n + 1) / 2 else n / 2)
    ∧ (alternation next n).count "Internet connection lost"
        = (if next then n / 2 else (n + 1) / 2) := by
  induction n generalizing next with
  | zero => cases next <;> simp [alternation]
  | succ m ih =>
    have h := ih (!next)
    cases next
    · simp only [alternation, Bool.not_false, if_true] at h ⊢
      simp only [Bool.false_eq_true, if_false]
      rw [List.count_cons, List.count_cons, h.1, h.2]
      simp
      omega
    · simp only [alternation, Bool.not_true, Bool.false_eq_true, if_false] at h ⊢
      simp only [if_true]
      rw [List.count_cons, List.count_cons, h.1, h.2]
      simp
      omega

theorem mainLoop_alternation (logger : Logger) (config : Config) (clock : Nat → String)
    (r : List Bool) (s : LoopState) :
    ∃ app : List LogLine,
      (mainLoop logger config clock r s).world.logFile = s.world.logFile ++ app
      ∧ app.map LogLine.msg = alternation (!s.lastStatus) app.length
      ∧ (mainLoop logger config clock r s).lastStatus
          = (if app.length % 2 = 0 then s.lastStatus else !s.lastStatus) := by
  induction r generalizing s with
  | nil => exact ⟨[], by simp [mainLoop], by simp [alternation], by simp [mainLoop]⟩
  | cons c rest ih =>
    obtain ⟨app, h1, h2, h3⟩ := ih (loopBody logger config clock c s)
    rw [loopBody_logFile] at h1
    rw [loopBody_lastStatus] at h2 h3
    by_cases hc : c = s.lastStatus
    · refine ⟨app, ?_, ?_, ?_⟩
      · simpa [mainLoop, hc] using h1
      · rw [← hc]
        exact h2
      · rw [← hc]
        simpa [mainLoop] using h3
    · have hne : s.lastStatus = !c := by
        cases c <;> cases hl : s.lastStatus <;> simp_all
      refine ⟨{ header := logger.header (clock s.world.probes)
                msg := if c then "Internet connection restored"
                       else "Internet connection lost" } :: app, ?_, ?_, ?_⟩
      · simpa [mainLoop, hc] using h1
      · simp only [List.map_cons, List.length_cons, alternation, hne, Bool.not_not, h2]
      · simp only [mainLoop, h3, List.length_cons, hne, Bool.not_not]
        rcases Nat.mod_two_eq_zero_or_one app.length with h0 | h1'
        · have : (app.length + 1) % 2 = 1 := by omega
          simp [h0, this]
        · have : (app.length + 1) % 2 = 0 := by omega
          simp [h1', this]

/-- C10: for every finite sequence of probe results fed through the loop from
the recorded state false, the entries appended to the log alternate and begin
with "restored": counting from 0, entry `k` is "Internet connection restored"
when `k` is even (the first, third, ... entry) and "Internet connection lost"
when `k` is odd, no two consecutive entries carry the same message, and the
number of "restored" entries exceeds the number of "lost" entries by 1 when the
final recorded state is connected and by 0 when it is disconnected. -/
theorem runLoop_alternates (logger : Logger) (config : Config) (clock : Nat → String)
    (w : World) (r : List Bool) :
    ∃ app : List LogLine,
      (runLoop logger config clock w r).world.logFile = w.logFile ++ app
      ∧ (∀ k : Nat, k < app.length →
          (app.map LogLine.msg).getD k ""
            = (if k % 2 = 0 then "Internet connection restored"
               else "Internet connection lost"))
      ∧ (∀ k : Nat, k + 1 < app.length →
          (app.map LogLine.msg).getD k "" ≠ (app.map LogLine.msg).getD (k + 1) "")
      ∧ (app.map LogLine.msg).count "Internet connection restored"
          = (app.map LogLine.msg).count "Internet connection lost"
            + (if (runLoop logger config clock w r).lastStatus then 1 else 0) := by
  obtain ⟨app, h1, h2, h3⟩ :=
    mainLoop_alternation logger config clock r { lastStatus := false, world := w }
  simp only [Bool.not_false] at h2 h3
  refine ⟨app, h1, ?_, ?_, ?_⟩
  · intro k hk
    rw [h2, alternation_getD true app.length k hk]
    simp
  · intro k hk
    rw [h2, alternation_getD true app.length k (by omega),
      alternation_getD true app.length (k + 1) hk]
    rcases Nat.mod_two_eq_zero_or_one k with h0 | h1'
    · have : (k + 1) % 2 = 1 := by omega
      simp [h0, this]
    · have : (k + 1) % 2 = 0 := by omega
      simp [h1', this]
  · rw [runLoop, h3, h2, (alternation_count true app.length).1,
      (alternation_count true app.length).2]
    rcases Nat.mod_two_eq_zero_or_one app.length with h0 | h1'
    · simp only [h0, if_true]
      simp
      omega
    · simp only [h1']
      simp
      omega

end OutageChecker
